import Mathlib

/-!
Verification development for the Groupie-Tracker web application
(`controller/controller.go`, `models/club.go`).

Strings are modelled as `List Char`; Go's 64-bit `int` is modelled as `Int`
with an explicit two's-complement wrap (`wrap64`) at the arithmetic
operations where overflow is reachable.  Fallible operations (Go slice
expressions, which may panic at run time) return `Option`.
-/

/-- Models `models.Club` (club.go).  `founded = 0` stands for the JSON
field being absent, exactly as in Go, where the zero value is used. -/
structure Club where
  id : Int
  name : List Char
  shortName : List Char
  tla : List Char
  website : List Char
  founded : Int
  venue : List Char
  crestUrl : List Char
deriving DecidableEq

/-- Models `controller.FilterResponse` (controller.go lines 28-34). -/
structure FilterResponse where
  clubs : List Club
  total : Int
  page : Int
  pageSize : Int
  totalPages : Int
deriving DecidableEq

/-- Models `controller.PageData` (controller.go lines 17-26).  The
`FavoriteIDs` map `map[string]bool` is modelled by the list of keys that
were inserted with value `true`; lookups are list membership. -/
structure PageData where
  title : List Char
  message : List Char
  clubs : List Club
  favorites : List Club
  favoriteIDs : List (List Char)
  searchQuery : List Char
  minYear : List Char
  maxYear : List Char
deriving DecidableEq

/-- The pieces of an `*http.Request` that the handlers under study read:
the method, the query parameters (`""` when absent), the `club_id` form
value (`""` when absent), the `favorites` cookie (`none` when absent) and
the `Referer` header (`""` when absent). -/
structure Request where
  method : List Char
  search : List Char
  minYear : List Char
  maxYear : List Char
  page : List Char
  pageSize : List Char
  clubID : List Char
  cookie : Option (List Char)
  referer : List Char
deriving DecidableEq

/-- Models a `Set-Cookie` emitted through `http.SetCookie`. -/
structure CookieOut where
  name : List Char
  value : List Char
  path : List Char
  maxAge : Int
  httpOnly : Bool
deriving DecidableEq

/-- Models the redirect produced by `http.Redirect`: target URL and HTTP
status code. -/
structure RedirectOut where
  location : List Char
  status : Nat
deriving DecidableEq

/-- `http.MethodPost`. -/
def MethodPost : List Char := "POST".toList

/-- Go `strings.ToLower`, restricted to the ASCII mapping (the inputs the
program compares are ASCII club names, codes and query strings). -/
def goToLower (s : List Char) : List Char := s.map Char.toLower

/-- Whether the second list starts the first (helper for `goContains`). -/
def startsWithL : List Char → List Char → Bool
  | _, [] => true
  | [], _ :: _ => false
  | c :: cs, d :: ds => c = d && startsWithL cs ds

/-- Go `strings.Contains hay needle`: `needle` occurs contiguously in
`hay` (the empty needle always matches). -/
def goContains : List Char → List Char → Bool
  | [], needle => startsWithL [] needle
  | c :: rest, needle => startsWithL (c :: rest) needle || goContains rest needle

/-- Decimal value of a digit string (helper for `atoi`). -/
def digitsToNat (ds : List Char) : Nat :=
  ds.foldl (fun acc c => acc * 10 + (c.toNat - 48)) 0

/-- Helper for `atoi`: parse the part after the optional sign.  Go's
`strconv.Atoi` fails on an empty digit string, on any non-digit character,
and on values outside the 64-bit signed range. -/
def atoiDigits (sign : Int) (digits : List Char) : Option Int :=
  if digits = [] then none
  else if digits.all Char.isDigit then
    let n : Int := sign * (digitsToNat digits : Nat)
    if -(2 ^ 63) ≤ n ∧ n < 2 ^ 63 then some n else none
  else none

/-- Go `strconv.Atoi` on a 64-bit platform: optional sign, one or more
ASCII digits, value within `[-2^63, 2^63)`; anything else is an error
(`none`). -/
def atoi : List Char → Option Int
  | '+' :: rest => atoiDigits 1 rest
  | '-' :: rest => atoiDigits (-1) rest
  | s => atoiDigits 1 s

/-- Two's-complement wrap of Go 64-bit `int` arithmetic. -/
def wrap64 (n : Int) : Int := (n + 2 ^ 63) % 2 ^ 64 - 2 ^ 63

/-- Go slice expression `l[s:e]`: defined (and equal to the elements from
index `s` up to `e`) when `0 ≤ s ≤ e ≤ len l`; otherwise the program
panics at run time, modelled as `none`. -/
def goSlice (l : List Club) (s e : Int) : Option (List Club) :=
  if 0 ≤ s ∧ s ≤ e ∧ e ≤ (l.length : Int) then
    some ((l.drop s.toNat).take (e - s).toNat)
  else none

/-- Parameter handling for `page` in `SearchAndFilter` (controller.go
lines 165-169): default 1, a parsed value is accepted only when > 0. -/
def parsePage (s : List Char) : Int :=
  match atoi s with
  | some p => if 0 < p then p else 1
  | none => 1

/-- Parameter handling for `pageSize` in `SearchAndFilter` (controller.go
lines 166-172): default 6, a parsed value is accepted only when in 1-50. -/
def parsePageSize (s : List Char) : Int :=
  match atoi s with
  | some ps => if 0 < ps ∧ ps ≤ 50 then ps else 6
  | none => 6

/-- The filter loop shared verbatim by `SearchAndFilter` (controller.go
lines 174-197) and `HomeWithFavorites` (lines 363-389).  `search` is the
already-lowercased search string, as at both call sites; a club is kept
unless one of the three `continue` guards fires. -/
def filterClubs (clubs : List Club) (search minYear maxYear : List Char) :
    List Club :=
  clubs.filter (fun club =>
    (if search.isEmpty then true
     else
       goContains (goToLower club.name) search ||
       goContains (goToLower club.shortName) search ||
       goContains (goToLower club.tla) search) &&
    (if minYear.isEmpty then true
     else
       match atoi minYear with
       | some m => !(decide (club.founded < m))
       | none => true) &&
    (if maxYear.isEmpty then true
     else
       match atoi maxYear with
       | some m => !(decide (m < club.founded))
       | none => true))

/-- The pagination step of `SearchAndFilter` (controller.go lines
199-212): returns (paged slice, total, totalPages).  The `start` and
`end` computations use wrapping 64-bit arithmetic as Go does; the final
slice expression is `goSlice`, `none` when Go would panic. -/
def paginate (filtered : List Club) (page pageSize : Int) :
    Option (List Club) × Int × Int :=
  let total : Int := filtered.length
  let totalPages := Int.tdiv (wrap64 (total + pageSize - 1)) pageSize
  let start := wrap64 ((page - 1) * pageSize)
  let endIdx := wrap64 (start + pageSize)
  let start := if start > total then total else start
  let endIdx := if endIdx > total then total else endIdx
  (goSlice filtered start endIdx, total, totalPages)

/-- The `clubs, err := models.LoadClubsFromFile(...)`; `if err != nil {`
`clubs = []models.Club{} }` prologue shared by `Home`, `SearchAndFilter`,
`HomeWithFavorites` and `Favorites`: a load error is replaced by the
empty list (the error is only logged). -/
def loadedClubs : Except String (List Club) → List Club
  | .ok cs => cs
  | .error _ => []

/-- `controller.SearchAndFilter` (controller.go lines 150-223) as a
function from the load result and the request to the JSON response;
`none` when the pagination slice panics. -/
def searchAndFilter (load : Except String (List Club)) (r : Request) :
    Option FilterResponse :=
  let clubs := loadedClubs load
  let search := goToLower r.search
  let page := parsePage r.page
  let pageSize := parsePageSize r.pageSize
  let filtered := filterClubs clubs search r.minYear r.maxYear
  match paginate filtered page pageSize with
  | (some paged, total, totalPages) =>
      some { clubs := paged, total := total, page := page,
             pageSize := pageSize, totalPages := totalPages }
  | (none, _, _) => none

/-- Go `strings.Split s ","`: split around every comma; adjacent commas
yield empty entries and the empty string yields `[[]]`. -/
def goSplitComma : List Char → List (List Char)
  | [] => [[]]
  | c :: rest =>
    if c = ',' then [] :: goSplitComma rest
    else
      match goSplitComma rest with
      | [] => [[c]]
      | h :: t => (c :: h) :: t

/-- Go `strings.Join parts ","`. -/
def goJoin : List (List Char) → List Char
  | [] => []
  | [p] => p
  | p :: rest => p ++ ',' :: goJoin rest

/-- `controller.GetFavoritesFromCookie` (controller.go lines 229-238):
absent or empty cookie gives `[]`, otherwise `strings.Split` on `","`. -/
def GetFavoritesFromCookie (cookie : Option (List Char)) :
    List (List Char) :=
  match cookie with
  | none => []
  | some v => if v = [] then [] else goSplitComma v

/-- The in-memory favorite-set transform performed by `AddFavorite`
(controller.go lines 263-271): keep the list unchanged when the id is
already present, otherwise append it once. -/
def addFavList (favorites : List (List Char)) (clubID : List Char) :
    List (List Char) :=
  if clubID ∈ favorites then favorites else favorites ++ [clubID]

/-- `controller.redirectBack` (controller.go lines 331-337): redirect
with status 303 to the `Referer` header, or to `defaultURL` when the
header is absent. -/
def redirectBack (referer defaultURL : List Char) : RedirectOut :=
  { location := if referer = [] then defaultURL else referer
    status := 303 }

/-- `controller.AddFavorite` (controller.go lines 249-283): returns the
emitted `Set-Cookie` (if any) and the redirect. -/
def AddFavorite (r : Request) : Option CookieOut × RedirectOut :=
  if r.method ≠ MethodPost then (none, redirectBack r.referer "/".toList)
  else if r.clubID = [] then (none, redirectBack r.referer "/".toList)
  else
    let favorites := GetFavoritesFromCookie r.cookie
    if r.clubID ∈ favorites then (none, redirectBack r.referer "/".toList)
    else
      let favorites := favorites ++ [r.clubID]
      (some { name := "favorites".toList, value := goJoin favorites,
              path := "/".toList, maxAge := 30 * 24 * 60 * 60,
              httpOnly := false },
       redirectBack r.referer "/".toList)

/-- `controller.RemoveFavorite` (controller.go lines 294-325). -/
def RemoveFavorite (r : Request) : Option CookieOut × RedirectOut :=
  if r.method ≠ MethodPost then (none, redirectBack r.referer "/".toList)
  else if r.clubID = [] then (none, redirectBack r.referer "/".toList)
  else
    let favorites := GetFavoritesFromCookie r.cookie
    let newFavorites := favorites.filter (fun fav => fav != r.clubID)
    (some { name := "favorites".toList, value := goJoin newFavorites,
            path := "/".toList, maxAge := 30 * 24 * 60 * 60,
            httpOnly := false },
     redirectBack r.referer "/".toList)

/-- `controller.ClearFavorites` (controller.go lines 461-477): note that
both branches redirect to the fixed URL `/favorites`, not to the
`Referer` header. -/
def ClearFavorites (r : Request) : Option CookieOut × RedirectOut :=
  if r.method ≠ MethodPost then
    (none, { location := "/favorites".toList, status := 303 })
  else
    (some { name := "favorites".toList, value := [], path := "/".toList,
            maxAge := -1, httpOnly := false },
     { location := "/favorites".toList, status := 303 })

/-- `fmt.Sprintf "%d" n` for a Go `int`: decimal digits with a leading
minus sign for negative values. -/
def intDecimal (n : Int) : List Char :=
  if n < 0 then '-' :: Nat.toDigits 10 (-n).toNat
  else Nat.toDigits 10 n.toNat

/-- The favorites-list construction shared verbatim by
`HomeWithFavorites` (controller.go lines 398-404) and `Favorites` (lines
440-446): keep the dataset clubs whose decimal id string is a key of the
favorite-ID map. -/
def buildFavorites (clubs : List Club) (favoriteIDs : List (List Char)) :
    List Club :=
  clubs.filter (fun club => favoriteIDs.contains (intDecimal club.id))

/-- `controller.Home` (controller.go lines 97-110).  Unset `PageData`
fields keep their Go zero values, modelled as empty lists. -/
def Home (load : Except String (List Club)) : PageData :=
  { title := "Accueil".toList
    message := "Bienvenue sur la page d'accueil".toList
    clubs := loadedClubs load
    favorites := []
    favoriteIDs := []
    searchQuery := []
    minYear := []
    maxYear := [] }

/-- `controller.HomeWithFavorites` (controller.go lines 350-417). -/
def HomeWithFavorites (load : Except String (List Club)) (r : Request) :
    PageData :=
  let clubs := loadedClubs load
  let search := goToLower r.search
  let filteredClubs := filterClubs clubs search r.minYear r.maxYear
  let favoriteIDs := GetFavoritesFromCookie r.cookie
  let favorites := buildFavorites clubs favoriteIDs
  { title := "Accueil".toList
    message := "Bienvenue sur la page d'accueil".toList
    clubs := filteredClubs
    favorites := favorites
    favoriteIDs := favoriteIDs
    searchQuery := search
    minYear := r.minYear
    maxYear := r.maxYear }

/-- `controller.Favorites` (controller.go lines 426-455). -/
def Favorites (load : Except String (List Club)) (r : Request) :
    PageData :=
  let clubs := loadedClubs load
  let favoriteIDs := GetFavoritesFromCookie r.cookie
  let favorites := buildFavorites clubs favoriteIDs
  { title := "Mes Favoris".toList
    message := "Vos clubs favoris".toList
    clubs := []
    favorites := favorites
    favoriteIDs := favoriteIDs
    searchQuery := []
    minYear := []
    maxYear := [] }

/-- Spec-side predicate for C1, following the spec's words: a club passes
if (search is empty OR it is a case-insensitive substring of name, short
name or code) AND (min-year absent or non-numeric OR founded ≥ min) AND
(max-year absent or non-numeric OR founded ≤ max).  "Absent or
non-numeric" is `atoi = none` (an absent query parameter reads as ""). -/
def specMatches (search minYear maxYear : List Char) (club : Club) :
    Bool :=
  (decide (search = []) ||
   goContains (goToLower club.name) (goToLower search) ||
   goContains (goToLower club.shortName) (goToLower search) ||
   goContains (goToLower club.tla) (goToLower search)) &&
  (match atoi minYear with
   | none => true
   | some m => decide (m ≤ club.founded)) &&
  (match atoi maxYear with
   | none => true
   | some m => decide (club.founded ≤ m))

/-- Concrete club fixture (spec §8 example data). -/
def arsenal : Club :=
  { id := 1, name := "Arsenal".toList, shortName := "Arsenal".toList,
    tla := "ARS".toList, website := [], founded := 1886, venue := [],
    crestUrl := [] }

/-- Concrete club fixture (spec §8 example data). -/
def chelsea : Club :=
  { id := 2, name := "Chelsea".toList, shortName := "Chelsea".toList,
    tla := "CHE".toList, website := [], founded := 1905, venue := [],
    crestUrl := [] }

/-- Concrete club fixture with `founded = 0` (unknown founding year). -/
def unknownClub : Club :=
  { id := 3, name := "Mystery".toList, shortName := "Mys".toList,
    tla := "MYS".toList, website := [], founded := 0, venue := [],
    crestUrl := [] }

/-- A plain GET request with no parameters, no cookie and no referer. -/
def emptyReq : Request :=
  { method := "GET".toList, search := [], minYear := [], maxYear := [],
    page := [], pageSize := [], clubID := [], cookie := none,
    referer := [] }

/-- A POST to `/add-favorite` whose `club_id` is already a favorite. -/
def postAddPresentReq : Request :=
  { method := "POST".toList, search := [], minYear := [], maxYear := [],
    page := [], pageSize := [], clubID := "5".toList,
    cookie := some "5,7".toList, referer := [] }

/-- A POST to `/add-favorite` whose `club_id` is not yet a favorite. -/
def postAddNewReq : Request :=
  { method := "POST".toList, search := [], minYear := [], maxYear := [],
    page := [], pageSize := [], clubID := "8".toList,
    cookie := some "5,7".toList, referer := [] }

theorem splitComma_no_comma (p : List Char) (h : ',' ∉ p) :
    goSplitComma p = [p] := by
  induction p with
  | nil => rfl
  | cons c rest ih =>
    have hc : ¬ c = ',' := fun hc => h (hc ▸ List.mem_cons_self c rest)
    have hrest : ',' ∉ rest := fun hr => h (List.mem_cons_of_mem c hr)
    rw [goSplitComma, if_neg hc, ih hrest]

theorem splitComma_append (p t : List Char) (h : ',' ∉ p) :
    goSplitComma (p ++ ',' :: t) = p :: goSplitComma t := by
  induction p with
  | nil => simp [goSplitComma]
  | cons c rest ih =>
    have hc : ¬ c = ',' := fun hc => h (hc ▸ List.mem_cons_self c rest)
    have hrest : ',' ∉ rest := fun hr => h (List.mem_cons_of_mem c hr)
    rw [List.cons_append, goSplitComma, if_neg hc, ih hrest]

theorem goJoin_cons_cons_ne_nil (x y : List Char) (t : List (List Char)) :
    goJoin (x :: y :: t) ≠ [] := by
  cases x with
  | nil => simp [goJoin]
  | cons c cs => simp [goJoin]

theorem goJoin_roundtrip (S : List (List Char)) (hS : S ≠ [])
    (h : ∀ x ∈ S, ',' ∉ x) : goSplitComma (goJoin S) = S := by
  induction S with
  | nil => exact absurd rfl hS
  | cons x rest ih =>
    cases rest with
    | nil => exact splitComma_no_comma x (h x (List.mem_cons_self x []))
    | cons y t =>
      have hx : ',' ∉ x := h x (List.mem_cons_self x (y :: t))
      have hrest : ∀ z ∈ y :: t, ',' ∉ z :=
        fun z hz => h z (List.mem_cons_of_mem x hz)
      rw [show goJoin (x :: y :: t) = x ++ ',' :: goJoin (y :: t) from rfl,
        splitComma_append x _ hx, ih (by simp) hrest]

/-- C5: serializing a set of non-empty, comma-free ID strings to the
comma-joined cookie form (`strings.Join`, as in `AddFavorite`) and
parsing it back with `GetFavoritesFromCookie` yields the same list
(hence the same set); an absent or empty cookie parses to the empty
set. -/
theorem c5_cookie_roundtrip :
    (∀ S : List (List Char), (∀ x ∈ S, x ≠ [] ∧ ',' ∉ x) →
      GetFavoritesFromCookie (some (goJoin S)) = S) ∧
    GetFavoritesFromCookie none = [] ∧
    GetFavoritesFromCookie (some []) = [] := by
  refine ⟨?_, rfl, rfl⟩
  intro S h
  cases S with
  | nil => rfl
  | cons x rest =>
    cases rest with
    | nil =>
      have hx := h x (List.mem_cons_self x [])
      rw [show goJoin [x] = x from rfl, GetFavoritesFromCookie,
        if_neg hx.1, splitComma_no_comma x hx.2]
    | cons y t =>
      rw [GetFavoritesFromCookie, if_neg (goJoin_cons_cons_ne_nil x y t)]
      exact goJoin_roundtrip _ (by simp) (fun z hz => (h z hz).2)

/-- Witness for C5 at a concrete favorite set. -/
theorem c5_cookie_roundtrip_witness :
    GetFavoritesFromCookie (some (goJoin ["12".toList, "34".toList])) =
      ["12".toList, "34".toList] :=
  c5_cookie_roundtrip.1 ["12".toList, "34".toList] (by decide)

/-- C9: for every view or API request, a dataset load failure is
recovered by substituting the empty club list: each handler's response on
`.error e` is exactly its normal response on the empty dataset, so the
load error never surfaces as an HTTP failure from these routes (the view
handlers are total functions into `PageData`). -/
theorem c9_load_error_recovered (e : String) (r : Request) :
    Home (.error e) = Home (.ok []) ∧
    HomeWithFavorites (.error e) r = HomeWithFavorites (.ok []) r ∧
    Favorites (.error e) r = Favorites (.ok []) r ∧
    searchAndFilter (.error e) r = searchAndFilter (.ok []) r ∧
    (Home (.error e)).clubs = [] :=
  ⟨rfl, rfl, rfl, rfl, rfl⟩

/-- C8 counterexample: the claim says `SearchQuery` equals the request's
search parameter exactly, but `HomeWithFavorites` stores the lowercased
search string: for `search = "A"` the view model carries `"a"`. -/
theorem c8_counterexample :
    (HomeWithFavorites (.ok []) { emptyReq with search := "A".toList
      }).searchQuery = "a".toList ∧
    "a".toList ≠ "A".toList := by decide

/-- C8 amended: `MinYear` and `MaxYear` echo the query parameters exactly
as supplied; `SearchQuery` echoes the lowercased search parameter
(`strings.ToLower` is applied before it is stored). -/
theorem c8_amended_echoed_values (load : Except String (List Club))
    (r : Request) :
    (HomeWithFavorites load r).searchQuery = goToLower r.search ∧
    (HomeWithFavorites load r).minYear = r.minYear ∧
    (HomeWithFavorites load r).maxYear = r.maxYear :=
  ⟨rfl, rfl, rfl⟩

/-- C10: in both `Favorites` and `HomeWithFavorites` the favorite-clubs
list is `buildFavorites`, which keeps the dataset clubs (in dataset
order, each occurrence at most as often as in the dataset) whose decimal
id string is among the parsed cookie entries; cookie entries matching no
club -- duplicates, empty entries from stray commas, unknown ids --
contribute nothing. -/
theorem c10_favorites_composition (load : Except String (List Club))
    (r : Request) :
    (Favorites load r).favorites =
      buildFavorites (loadedClubs load) (GetFavoritesFromCookie r.cookie) ∧
    (HomeWithFavorites load r).favorites =
      buildFavorites (loadedClubs load) (GetFavoritesFromCookie r.cookie) ∧
    (buildFavorites (loadedClubs load)
      (GetFavoritesFromCookie r.cookie)).Sublist (loadedClubs load) ∧
    (∀ c : Club,
      c ∈ buildFavorites (loadedClubs load) (GetFavoritesFromCookie r.cookie)
        ↔ c ∈ loadedClubs load ∧
          (GetFavoritesFromCookie r.cookie).contains (intDecimal c.id)
            = true) ∧
    (∀ c : Club,
      (buildFavorites (loadedClubs load)
        (GetFavoritesFromCookie r.cookie)).count c
        ≤ (loadedClubs load).count c) :=
  ⟨rfl, rfl, List.filter_sublist _, fun _ => List.mem_filter,
   fun c => (List.filter_sublist _).count_le c⟩

/-- C7: the `page` parameter of `/api/clubs` defaults to 1, and a
non-numeric or non-positive value is ignored (the default is kept); the
`pageSize` parameter defaults to 6, a non-numeric, non-positive or
too-large (> 50) value falls back to 6, and a value in 1..50 is accepted
as given. -/
theorem c7_paging_parameters (s : List Char) :
    (atoi s = none → parsePage s = 1 ∧ parsePageSize s = 6) ∧
    (∀ p : Int, atoi s = some p →
      (p ≤ 0 → parsePage s = 1) ∧
      (0 < p → parsePage s = p) ∧
      ((p ≤ 0 ∨ 50 < p) → parsePageSize s = 6) ∧
      (0 < p → p ≤ 50 → parsePageSize s = p)) := by
  constructor
  · intro h
    rw [parsePage, parsePageSize, h]
    exact ⟨rfl, rfl⟩
  · intro p hp
    refine ⟨fun h1 => ?_, fun h1 => ?_, fun h1 => ?_, fun h1 h2 => ?_⟩
    · simp only [parsePage, hp]
      rw [if_neg (by omega)]
    · simp only [parsePage, hp]
      rw [if_pos h1]
    · simp only [parsePageSize, hp]
      rw [if_neg (by omega)]
    · simp only [parsePageSize, hp]
      rw [if_pos ⟨h1, h2⟩]

/-- Witness for C7 at concrete parameter strings. -/
theorem c7_paging_parameters_witness :
    parsePage "abc".toList = 1 ∧ parsePageSize "51".toList = 6 ∧
    parsePage "7".toList = 7 ∧ parsePageSize "7".toList = 7 :=
  ⟨((c7_paging_parameters "abc".toList).1 (by decide)).1,
   (((c7_paging_parameters "51".toList).2 51 (by decide)).2.2.1
     (Or.inr (by decide))),
   (((c7_paging_parameters "7".toList).2 7 (by decide)).2.1 (by decide)),
   (((c7_paging_parameters "7".toList).2 7 (by decide)).2.2.2 (by decide)
     (by decide))⟩

/-- C3 counterexample: a GET request to `/clear-favorites` with a
`Referer` of `/home` is redirected to the fixed URL `/favorites`, not to
the referrer as the claim states (the claim's redirect rule fails for
this endpoint). -/
theorem c3_counterexample :
    ClearFavorites { emptyReq with referer := "/home".toList } =
      (none, { location := "/favorites".toList, status := 303 }) ∧
    "/favorites".toList ≠ "/home".toList := by decide

/-- C3 amended: non-POST requests to all three favorites endpoints, and
POSTs to add/remove with a missing `club_id`, set no cookie; every
response of `/add-favorite` and `/remove-favorite` is a 303 redirect to
the Referer when present, else to the default `/`; `/clear-favorites`
always responds 303 to the fixed URL `/favorites`, ignoring the
Referer. -/
theorem c3_amended_no_op_redirects (r : Request) :
    ((AddFavorite r).2 = redirectBack r.referer "/".toList ∧
     (RemoveFavorite r).2 = redirectBack r.referer "/".toList ∧
     (ClearFavorites r).2 =
       { location := "/favorites".toList, status := 303 } ∧
     (redirectBack r.referer "/".toList).status = 303) ∧
    (r.method ≠ MethodPost →
      (AddFavorite r).1 = none ∧ (RemoveFavorite r).1 = none ∧
      (ClearFavorites r).1 = none) ∧
    (r.clubID = [] →
      (AddFavorite r).1 = none ∧ (RemoveFavorite r).1 = none) := by
  refine ⟨⟨?_, ?_, ?_, rfl⟩, ?_, ?_⟩
  · unfold AddFavorite
    repeat first | rfl | split | dsimp only
  · unfold RemoveFavorite
    repeat first | rfl | split | dsimp only
  · unfold ClearFavorites
    repeat first | rfl | split | dsimp only
  · intro h
    rw [AddFavorite, if_pos h, RemoveFavorite, if_pos h, ClearFavorites,
      if_pos h]
    exact ⟨rfl, rfl, rfl⟩
  · intro h
    by_cases hm : r.method = MethodPost
    · rw [AddFavorite, if_neg (not_not_intro hm), if_pos h,
        RemoveFavorite, if_neg (not_not_intro hm), if_pos h]
      exact ⟨rfl, rfl⟩
    · rw [AddFavorite, if_pos hm, RemoveFavorite, if_pos hm]
      exact ⟨rfl, rfl⟩

/-- Witness for C3 (amended) at a concrete GET request. -/
theorem c3_amended_no_op_redirects_witness :
    (AddFavorite { emptyReq with referer := "/h".toList }).1 = none ∧
    (RemoveFavorite { emptyReq with referer := "/h".toList }).1 = none ∧
    (ClearFavorites { emptyReq with referer := "/h".toList }).2 =
      { location := "/favorites".toList, status := 303 } :=
  ⟨((c3_amended_no_op_redirects
      { emptyReq with referer := "/h".toList }).2.1 (by decide)).1,
   ((c3_amended_no_op_redirects
      { emptyReq with referer := "/h".toList }).2.1 (by decide)).2.1,
   (c3_amended_no_op_redirects
      { emptyReq with referer := "/h".toList }).1.2.2.1⟩

/-- C4: the favorite-set transform of `AddFavorite` is idempotent
(`Add(Add(S,id),id) = Add(S,id)`); at the handler level, a POST with a
`club_id` already in the parsed cookie set emits no `Set-Cookie` (no
mutation), while a new id is appended once and persisted as the
comma-join of the extended list in a 30-day cookie. -/
theorem c4_add_idempotent :
    (∀ (S : List (List Char)) (id : List Char),
      addFavList (addFavList S id) id = addFavList S id) ∧
    (∀ r : Request, r.method = MethodPost → r.clubID ≠ [] →
      (r.clubID ∈ GetFavoritesFromCookie r.cookie →
        (AddFavorite r).1 = none) ∧
      (r.clubID ∉ GetFavoritesFromCookie r.cookie →
        (AddFavorite r).1 = some
          { name := "favorites".toList,
            value := goJoin (GetFavoritesFromCookie r.cookie ++ [r.clubID]),
            path := "/".toList, maxAge := 30 * 24 * 60 * 60,
            httpOnly := false })) := by
  constructor
  · intro S id
    by_cases h : id ∈ S
    · simp [addFavList, h]
    · simp [addFavList, h]
  · intro r hm hc
    rw [AddFavorite, if_neg (not_not_intro hm), if_neg hc]
    constructor
    · intro h
      rw [if_pos h]
    · intro h
      rw [if_neg h]

/-- Witness for C4: adding an id twice from the empty set, and a POST
whose `club_id` is already present in the cookie. -/
theorem c4_add_idempotent_witness :
    addFavList (addFavList [] "5".toList) "5".toList =
      addFavList [] "5".toList ∧
    (AddFavorite postAddPresentReq).1 = none ∧
    (AddFavorite postAddNewReq).1 = some
      { name := "favorites".toList, value := "5,7,8".toList,
        path := "/".toList, maxAge := 30 * 24 * 60 * 60,
        httpOnly := false } :=
  ⟨c4_add_idempotent.1 [] "5".toList,
   (c4_add_idempotent.2 postAddPresentReq (by decide) (by decide)).1
     (by decide),
   by
     rw [(c4_add_idempotent.2 postAddNewReq (by decide) (by decide)).2
       (by decide)]
     decide⟩

theorem atoi_nil : atoi [] = none := rfl

theorem searchGuard_eq (raw : List Char) (c : Club) :
    (if (goToLower raw).isEmpty then true
     else
       goContains (goToLower c.name) (goToLower raw) ||
       goContains (goToLower c.shortName) (goToLower raw) ||
       goContains (goToLower c.tla) (goToLower raw)) =
    (decide (raw = []) ||
     goContains (goToLower c.name) (goToLower raw) ||
     goContains (goToLower c.shortName) (goToLower raw) ||
     goContains (goToLower c.tla) (goToLower raw)) := by
  by_cases h : raw = []
  · subst h
    simp [goToLower]
  · have h2 : ¬ (goToLower raw).isEmpty = true := by
      simp [goToLower, h]
    rw [if_neg h2, decide_eq_false h, Bool.false_or]

theorem minGuard_eq (minY : List Char) (c : Club) :
    (if minY.isEmpty then true
     else
       match atoi minY with
       | some m => !(decide (c.founded < m))
       | none => true) =
    (match atoi minY with
     | none => true
     | some m => decide (m ≤ c.founded)) := by
  by_cases h : minY = []
  · subst h
    rfl
  · rw [if_neg (by simp [h])]
    cases hm : atoi minY with
    | none => rfl
    | some m =>
      by_cases hlt : c.founded < m
      · have hle : ¬ m ≤ c.founded := by omega
        simp [hlt, hle]
      · have hle : m ≤ c.founded := by omega
        simp [hlt, hle]

theorem maxGuard_eq (maxY : List Char) (c : Club) :
    (if maxY.isEmpty then true
     else
       match atoi maxY with
       | some m => !(decide (m < c.founded))
       | none => true) =
    (match atoi maxY with
     | none => true
     | some m => decide (c.founded ≤ m)) := by
  by_cases h : maxY = []
  · subst h
    rfl
  · rw [if_neg (by simp [h])]
    cases hm : atoi maxY with
    | none => rfl
    | some m =>
      by_cases hlt : m < c.founded
      · have hle : ¬ c.founded ≤ m := by omega
        simp [hlt, hle]
      · have hle : c.founded ≤ m := by omega
        simp [hlt, hle]

theorem filterClubs_eq_specMatches (clubs : List Club)
    (searchRaw minY maxY : List Char) :
    filterClubs clubs (goToLower searchRaw) minY maxY =
      clubs.filter (specMatches searchRaw minY maxY) := by
  unfold filterClubs
  refine List.filter_congr ?_
  intro c _
  dsimp only
  rw [searchGuard_eq, minGuard_eq, maxGuard_eq]
  rfl

/-- C1: the shared filter of `SearchAndFilter` and `HomeWithFavorites`
keeps exactly the clubs matching the spec's rule `specMatches` (empty
search or case-insensitive substring of name, short name or code; each
year bound absent/unparseable or satisfied inclusively), where
"non-numeric" is "`strconv.Atoi` fails"; a bound on which `Atoi` fails
filters out no club, and a club with `founded = 0` is excluded by any
parsed min-year bound > 0. -/
theorem c1_filter_rule (clubs : List Club)
    (searchRaw minY maxY : List Char) :
    filterClubs clubs (goToLower searchRaw) minY maxY =
      clubs.filter (specMatches searchRaw minY maxY) ∧
    (atoi minY = none →
      filterClubs clubs (goToLower searchRaw) minY maxY =
        filterClubs clubs (goToLower searchRaw) [] maxY) ∧
    (∀ c ∈ clubs, c.founded = 0 → ∀ m : Int, atoi minY = some m →
      0 < m → c ∉ filterClubs clubs (goToLower searchRaw) minY maxY) := by
  refine ⟨filterClubs_eq_specMatches clubs searchRaw minY maxY, ?_, ?_⟩
  · intro h
    rw [filterClubs_eq_specMatches, filterClubs_eq_specMatches]
    refine List.filter_congr ?_
    intro c _
    unfold specMatches
    rw [h, atoi_nil]
  · intro c _ h0 m hm hmpos hmem
    rw [filterClubs_eq_specMatches, List.mem_filter] at hmem
    have h2 := hmem.2
    simp [specMatches, hm, h0] at h2
    omega

/-- Witness for C1: a non-numeric min-year bound `"abc"` filters nothing,
and `unknownClub` (founded = 0) is excluded by min-year 1900. -/
theorem c1_filter_rule_witness :
    filterClubs [arsenal, chelsea] (goToLower "arsenal".toList)
        "abc".toList [] =
      filterClubs [arsenal, chelsea] (goToLower "arsenal".toList) [] [] ∧
    unknownClub ∉
      filterClubs [unknownClub] (goToLower []) "1900".toList [] :=
  ⟨(c1_filter_rule [arsenal, chelsea] "arsenal".toList "abc".toList
      []).2.1 (by decide),
   (c1_filter_rule [unknownClub] [] "1900".toList []).2.2 unknownClub
     (by decide) (by decide) 1900 (by decide) (by decide)⟩

theorem wrap64_eq_self (x : Int) (h1 : -(2 ^ 63) ≤ x) (h2 : x < 2 ^ 63) :
    wrap64 x = x := by
  unfold wrap64
  omega

theorem tdiv_coe (a b : Nat) :
    Int.tdiv (a : Int) (b : Int) = ((a / b : Nat) : Int) := rfl

theorem ceil_div_mul_ge (N PS : Nat) (h : 1 ≤ PS) :
    N ≤ ((N + PS - 1) / PS) * PS := by
  have hd := Nat.div_add_mod (N + PS - 1) PS
  have hm : (N + PS - 1) % PS < PS := Nat.mod_lt _ (by omega)
  rw [Nat.mul_comm]
  generalize hM : PS * ((N + PS - 1) / PS) = M at hd ⊢
  generalize hr : (N + PS - 1) % PS = r at hd hm
  omega

theorem tp_le_total (N PS : Nat) (hPS : 1 ≤ PS) (hN : 1 ≤ N) :
    (N + PS - 1) / PS ≤ N := by
  rw [Nat.div_le_iff_le_mul_add_pred (by omega : 0 < PS)]
  have h1 : N ≤ PS * N := Nat.le_mul_of_pos_left N (by omega)
  generalize hM : PS * N = M at h1 ⊢
  omega

theorem chunks_flatten (l : List Club) (ps : Nat) (n : Nat) :
    ((List.range n).map (fun i => (l.drop (i * ps)).take ps)).flatten =
      l.take (n * ps) := by
  induction n with
  | zero => simp
  | succ k ih =>
    rw [List.range_succ, List.map_append, List.flatten_append, ih,
      List.map_singleton, List.flatten_cons, List.flatten_nil,
      List.append_nil, Nat.succ_mul, List.take_add]

theorem paginate_snd (l : List Club) (p ps : Int) (hps : 1 ≤ ps)
    (hlen : (l.length : Int) + ps < 2 ^ 63) :
    (paginate l p ps).2 = ((l.length : Int),
      (((l.length + ps.toNat - 1) / ps.toNat : Nat) : Int)) := by
  have hpsn : ((ps.toNat : Int)) = ps := Int.toNat_of_nonneg (by omega)
  unfold paginate
  dsimp only
  congr 1
  rw [wrap64_eq_self _ (by omega) (by omega), ← hpsn,
    show (l.length : Int) + (ps.toNat : Int) - 1 =
      ((l.length + ps.toNat - 1 : Nat) : Int) from by omega]
  exact tdiv_coe _ _

theorem paginate_fst (l : List Club) (p ps : Int) (hp : 1 ≤ p)
    (hps : 1 ≤ ps) (hov : p * ps < 2 ^ 63)
    (hlen : (l.length : Int) + ps < 2 ^ 63) :
    (paginate l p ps).1 =
      some ((l.drop ((p - 1) * ps).toNat).take ps.toNat) := by
  have hexp : (p - 1) * ps = p * ps - ps := by ring
  have hs0 : 0 ≤ (p - 1) * ps := mul_nonneg (by omega) (by omega)
  have hN0 : (0 : Int) ≤ (l.length : Int) := by omega
  unfold paginate
  dsimp only
  rw [wrap64_eq_self ((p - 1) * ps) (by omega) (by omega),
    show (p - 1) * ps + ps = p * ps from by ring,
    wrap64_eq_self (p * ps) (by omega) hov]
  by_cases hA : (p - 1) * ps > (l.length : Int)
  · rw [if_pos hA, if_pos (show p * ps > (l.length : Int) from by omega)]
    unfold goSlice
    rw [if_pos ⟨hN0, le_refl _, le_refl _⟩]
    have hdrop1 : l.drop ((l.length : Int)).toNat = [] := by
      rw [Int.toNat_natCast]
      exact List.drop_length l
    have hdrop2 : l.drop ((p - 1) * ps).toNat = [] :=
      List.drop_eq_nil_of_le (by omega)
    rw [hdrop1, hdrop2, List.take_nil, List.take_nil]
  · by_cases hB : p * ps > (l.length : Int)
    · rw [if_neg hA, if_pos hB]
      unfold goSlice
      rw [if_pos ⟨hs0, by omega, le_refl _⟩]
      have hlenDrop : (l.drop ((p - 1) * ps).toNat).length =
          l.length - ((p - 1) * ps).toNat := List.length_drop _ _
      rw [List.take_of_length_le (by omega),
        List.take_of_length_le (by omega)]
    · rw [if_neg hA, if_neg hB]
      unfold goSlice
      rw [if_pos ⟨hs0, by omega, by omega⟩,
        show p * ps - (p - 1) * ps = ps from by ring]

/-- C6 counterexample: `page = 9223372036854775807` (accepted by the
clamping, since `Atoi` parses it and it is > 0) makes
`start = (page-1)*pageSize` overflow 64-bit `int` to a negative value;
the bounds are then not clamped into `[0,total]` and the slice operation
is out of bounds (a run-time panic, `none`), so pagination does not
"never error". -/
theorem c6_counterexample :
    searchAndFilter (.ok [arsenal])
        { emptyReq with page := "9223372036854775807".toList } = none ∧
    (paginate [arsenal] 9223372036854775807 6).1 = none := by decide

/-- C6 amended: for every clamped page/pageSize whose start-index product
stays within 64-bit `int` (in particular whenever
`page * pageSize < 2^63`), the pagination slice is always in bounds, and
a page beyond the reported `totalPages` yields the empty page, never an
error; without that overflow bound the slice can fail (see the
counterexample). -/
theorem c6_amended_pagination_safety (filtered : List Club)
    (page pageSize : Int) (hp : 1 ≤ page) (hps1 : 1 ≤ pageSize)
    (hps2 : pageSize ≤ 50) (hov : page * pageSize < 2 ^ 63)
    (hlen : (filtered.length : Int) + pageSize < 2 ^ 63) :
    ∃ pg, (paginate filtered page pageSize).1 = some pg ∧
      ((paginate filtered page pageSize).2.2 < page → pg = []) := by
  refine ⟨_, paginate_fst filtered page pageSize hp hps1 hov hlen, ?_⟩
  intro hbeyond
  rw [paginate_snd filtered page pageSize hps1 hlen] at hbeyond
  dsimp only at hbeyond
  have h2 := ceil_div_mul_ge filtered.length pageSize.toNat (by omega)
  have hpsn : ((pageSize.toNat : Int)) = pageSize :=
    Int.toNat_of_nonneg (by omega)
  have h3 : (filtered.length : Int) ≤
      (((filtered.length + pageSize.toNat - 1) / pageSize.toNat : Nat) :
        Int) * pageSize := by
    rw [← hpsn]
    exact_mod_cast h2
  have h4 : (((filtered.length + pageSize.toNat - 1) / pageSize.toNat :
      Nat) : Int) * pageSize ≤ (page - 1) * pageSize :=
    mul_le_mul_of_nonneg_right (by omega) (by omega)
  have h5 : filtered.drop ((page - 1) * pageSize).toNat = [] :=
    List.drop_eq_nil_of_le (by omega)
  rw [h5, List.take_nil]

/-- Witness for C6 (amended): two clubs, pageSize 2, page 5 is beyond
`totalPages = 1` and yields the empty page. -/
theorem c6_amended_pagination_safety_witness :
    ∃ pg, (paginate [arsenal, chelsea] 5 2).1 = some pg ∧
      ((paginate [arsenal, chelsea] 5 2).2.2 < 5 → pg = []) :=
  c6_amended_pagination_safety [arsenal, chelsea] 5 2 (by decide)
    (by decide) (by decide) (by decide) (by decide)

/-- C2: for every filtered list (of any length a Go slice can have; here
bounded by `2^56`, far above any feasible dataset, to keep the 64-bit
index arithmetic exact) and every valid page size 1..50, each page for
`page` between 1 and the reported `totalPages` is defined and has length
at most `pageSize`, and concatenating the pages `1, 2, ..., totalPages`
in order yields the filtered list exactly, each element once. -/
theorem c2_pagination_partition (filtered : List Club) (pageSize : Int)
    (hps1 : 1 ≤ pageSize) (hps2 : pageSize ≤ 50)
    (hlen : (filtered.length : Int) ≤ 2 ^ 56) :
    (∀ page : Int, 1 ≤ page →
      page ≤ (paginate filtered page pageSize).2.2 →
      ∃ pg, (paginate filtered page pageSize).1 = some pg ∧
        (pg.length : Int) ≤ pageSize) ∧
    List.flatten ((List.range ((paginate filtered 1 pageSize).2.2).toNat).map
      (fun (i : Nat) => ((paginate filtered ((i : Int) + 1) pageSize).1).getD []))
      = filtered := by
  have hlen63 : (filtered.length : Int) + pageSize < 2 ^ 63 := by omega
  have hpsn : ((pageSize.toNat : Int)) = pageSize :=
    Int.toNat_of_nonneg (by omega)
  constructor
  · intro page hp htp
    rw [paginate_snd filtered page pageSize hps1 hlen63] at htp
    dsimp only at htp
    have hovb : page * pageSize < 2 ^ 63 := by
      by_cases hN0 : filtered.length = 0
      · rw [hN0] at htp
        rw [show ((0 + pageSize.toNat - 1) / pageSize.toNat : Nat) = 0 from
          Nat.div_eq_of_lt (by omega)] at htp
        exact absurd hp (by omega)
      · have htpN := tp_le_total filtered.length pageSize.toNat (by omega)
          (by omega)
        have hpage : page ≤ (2 : Int) ^ 56 := by omega
        calc page * pageSize ≤ (2 : Int) ^ 56 * 50 :=
              mul_le_mul hpage hps2 (by omega) (by norm_num)
          _ < 2 ^ 63 := by norm_num
    refine ⟨_, paginate_fst filtered page pageSize hp hps1 hovb hlen63, ?_⟩
    have hlt : ((filtered.drop ((page - 1) * pageSize).toNat).take
        pageSize.toNat).length ≤ pageSize.toNat := by
      rw [List.length_take]
      exact min_le_left _ _
    omega
  · rw [paginate_snd filtered 1 pageSize hps1 hlen63]
    dsimp only
    rw [Int.toNat_natCast]
    have hcongr : ∀ i ∈ List.range
        ((filtered.length + pageSize.toNat - 1) / pageSize.toNat),
        ((paginate filtered ((i : Int) + 1) pageSize).1).getD [] =
          (filtered.drop (i * pageSize.toNat)).take pageSize.toNat := by
      intro i hi
      rw [List.mem_range] at hi
      have hN1 : 1 ≤ filtered.length := by
        by_contra hN0
        rw [show filtered.length = 0 from by omega] at hi
        rw [show ((0 + pageSize.toNat - 1) / pageSize.toNat : Nat) = 0 from
          Nat.div_eq_of_lt (by omega)] at hi
        omega
      have htpN := tp_le_total filtered.length pageSize.toNat (by omega) hN1
      have hov : ((i : Int) + 1) * pageSize < 2 ^ 63 := by
        have hile : ((i : Int)) + 1 ≤ (2 : Int) ^ 56 := by omega
        calc ((i : Int) + 1) * pageSize ≤ (2 : Int) ^ 56 * 50 :=
              mul_le_mul hile hps2 (by omega) (by norm_num)
          _ < 2 ^ 63 := by norm_num
      rw [paginate_fst filtered ((i : Int) + 1) pageSize (by omega) hps1
        hov hlen63, Option.getD_some]
      have h1 : ((i : Int) + 1 - 1) * pageSize =
          ((i * pageSize.toNat : Nat) : Int) := by
        calc ((i : Int) + 1 - 1) * pageSize = (i : Int) * pageSize := by
              ring
          _ = (i : Int) * ((pageSize.toNat : Int)) := by rw [hpsn]
          _ = ((i * pageSize.toNat : Nat) : Int) := by push_cast; ring
      rw [h1, Int.toNat_natCast]
    rw [List.map_congr_left hcongr, chunks_flatten]
    exact List.take_of_length_le
      (ceil_div_mul_ge filtered.length pageSize.toNat (by omega))

/-- Witness for C2: two clubs with pageSize 1 give two singleton pages
whose concatenation restores the list. -/
theorem c2_pagination_partition_witness :
    (∃ pg, (paginate [arsenal, chelsea] 2 1).1 = some pg ∧
      (pg.length : Int) ≤ 1) ∧
    List.flatten ((List.range ((paginate [arsenal, chelsea] 1 1).2.2).toNat).map
      (fun (i : Nat) => ((paginate [arsenal, chelsea] ((i : Int) + 1) 1).1).getD []))
      = [arsenal, chelsea] :=
  ⟨(c2_pagination_partition [arsenal, chelsea] 1 (by decide) (by decide)
      (by decide)).1 2 (by decide) (by decide),
   (c2_pagination_partition [arsenal, chelsea] 1 (by decide) (by decide)
      (by decide)).2⟩
